import Mathlib

/-!
Verification of the CYBERTRACKER scanner's synchronization engine.

This file shallowly embeds the Python sources under `scanner/`:
timestamp parsing (`datetime.strptime` with format `%Y-%m-%d %H:%M:%S`),
CSV handling, the freshness check (`API_LocalComparison.main`), the remote
oracle (`getRecentAPIData.get_latest_sample_timestamp`), the mirror
synchronizer (`update_hashes.main`), the rebuild (`import_hashes.py`),
and the lookup (`db.check_hash` / `main.py`).

Modelling conventions:
- Machine timestamps are `Nat`, encoding the tuple (Y, M, D, h, m, s) as
  `((((Y*100+M)*100+D)*100+h)*100+m)*100+s`; the order on `Nat` coincides
  with `datetime` order for values in range. The parser is slightly more
  permissive than `strptime` (it does not validate day-of-month against the
  month length, and it requires exactly two digits per field where
  `strptime` tolerates one); no claim depends on these corner inputs.
- File contents are `List String` (lines without trailing newline).
- SHA-256 is treated as injective, so "content digest equals" is modelled
  as content equality.
- A file-write failure swallowed by the code (the metadata write in
  `import_hashes.py`) is an explicit boolean input `metaOk`.
- Text fields absent from a short CSV row are modelled as absent keys
  (Python's `DictReader` pads them with `None`; for the `sha256_hash`
  access both behaviours make the row raise and be skipped).
-/

/-- Numeric value of a digit character. -/
def digitVal (c : Char) : Nat := c.toNat - 48

/-- Encode a (year, month, day, hour, minute, second) tuple into one Nat. -/
def encodeTs (y mo d h mi s : Nat) : Nat :=
  ((((y * 100 + mo) * 100 + d) * 100 + h) * 100 + mi) * 100 + s

/-- Model of `datetime.strptime(s, "%Y-%m-%d %H:%M:%S")`: `none` when the
string does not match the format, otherwise the encoded timestamp. -/
def parseTs (s : String) : Option Nat :=
  match s.data with
  | [y1, y2, y3, y4, c1, m1, m2, c2, d1, d2, c3, h1, h2, c4, n1, n2, c5, s1, s2] =>
    if (y1.isDigit && y2.isDigit && y3.isDigit && y4.isDigit &&
        m1.isDigit && m2.isDigit && d1.isDigit && d2.isDigit &&
        h1.isDigit && h2.isDigit && n1.isDigit && n2.isDigit &&
        s1.isDigit && s2.isDigit) &&
       (c1 == '-' && c2 == '-' && c3 == ' ' && c4 == ':' && c5 == ':') then
      let y := ((digitVal y1 * 10 + digitVal y2) * 10 + digitVal y3) * 10 + digitVal y4
      let mo := digitVal m1 * 10 + digitVal m2
      let dd := digitVal d1 * 10 + digitVal d2
      let hh := digitVal h1 * 10 + digitVal h2
      let mi := digitVal n1 * 10 + digitVal n2
      let ss := digitVal s1 * 10 + digitVal s2
      if 1 ≤ mo && mo ≤ 12 && 1 ≤ dd && dd ≤ 31 && hh ≤ 23 && mi ≤ 59 && ss ≤ 59 then
        some (encodeTs y mo dd hh mi ss)
      else none
    else none
  | _ => none

/-- Left-pad a number below 100 to two digits. -/
def pad2 (n : Nat) : String := if n < 10 then "0" ++ toString n else toString n

/-- Left-pad a number below 10000 to four digits. -/
def pad4 (n : Nat) : String :=
  if n < 10 then "000" ++ toString n
  else if n < 100 then "00" ++ toString n
  else if n < 1000 then "0" ++ toString n
  else toString n

/-- Model of `dt.strftime("%Y-%m-%d %H:%M:%S")` on an encoded timestamp. -/
def formatTs (t : Nat) : String :=
  pad4 (t / 10000000000) ++ "-" ++ pad2 (t / 100000000 % 100) ++ "-" ++
  pad2 (t / 1000000 % 100) ++ " " ++ pad2 (t / 10000 % 100) ++ ":" ++
  pad2 (t / 100 % 100) ++ ":" ++ pad2 (t % 100)

/-- Whitespace as stripped by Python's `str.strip()`. -/
def isWs (c : Char) : Bool := c == ' ' || c == '\t' || c == '\n' || c == '\r'

/-- Model of Python `str.strip()`. -/
def trimStr (s : String) : String :=
  String.mk (((s.data.dropWhile isWs).reverse.dropWhile isWs).reverse)

/-- Model of Python `str.lstrip()`. -/
def trimLeftStr (s : String) : String := String.mk (s.data.dropWhile isWs)

/-- Does the char list `p` lead the char list `s`? -/
def leadsWith : List Char → List Char → Bool
  | [], _ => true
  | _ :: _, [] => false
  | p :: ps, c :: cs => p == c && leadsWith ps cs

/-- Model of Python `str.startswith(p)`. -/
def strStarts (s p : String) : Bool := leadsWith p.data s.data

/-- Model of Python `c in s` for a single character. -/
def containsChar (s : String) (c : Char) : Bool := s.data.any (· == c)

/-- Model of Python `str.lower()`. -/
def lowerStr (s : String) : String := String.mk (s.data.map Char.toLower)

/-- Model of Python `str.lstrip('#')`. -/
def dropHashes (s : String) : String := String.mk (s.data.dropWhile (· == '#'))

/-- Model of Python `str.strip('"')`. -/
def stripQuotesEnds (s : String) : String :=
  String.mk (((s.data.dropWhile (· == '"')).reverse.dropWhile (· == '"')).reverse)

/-- Field splitter for one CSV line, modelling Python's `csv` module with
`skipinitialspace=True`: `inQ` = inside a quoted field, `atStart` = at the
start of a field (spaces skipped, an opening quote recognised). -/
def csvFieldsAux (inQ atStart : Bool) (cur : List Char) (acc : List String) :
    List Char → List String
  | [] => acc ++ [String.mk cur]
  | c :: rest =>
    if inQ then
      if c == '"' then csvFieldsAux false false cur acc rest
      else csvFieldsAux true false (cur ++ [c]) acc rest
    else if atStart then
      if c == ' ' then csvFieldsAux false true cur acc rest
      else if c == '"' then csvFieldsAux true false cur acc rest
      else if c == ',' then csvFieldsAux false true [] (acc ++ [String.mk cur]) rest
      else csvFieldsAux false false (cur ++ [c]) acc rest
    else
      if c == ',' then csvFieldsAux false true [] (acc ++ [String.mk cur]) rest
      else csvFieldsAux false false (cur ++ [c]) acc rest

/-- Parse one CSV line into fields; a blank line yields no row, matching
`csv.reader`'s skipping of empty lines. -/
def parseCsvLine (s : String) : List String :=
  if s == "" then [] else csvFieldsAux false true [] [] s.data

/-- Accumulator update of `import_hashes._newest_first_seen_from_csv` and
`localHashes_Check._newest_first_seen_from_csv`: keep the newest value
(`if newest is None or dt > newest`). -/
def optMax (a b : Option Nat) : Option Nat :=
  match b with
  | none => a
  | some x =>
    match a with
    | none => some x
    | some y => if y < x then some x else some y

/-- Line filter of the generator feeding `csv.reader` in
`_newest_first_seen_from_csv`: `if line.strip() and not line.startswith('##')`. -/
def lineKept (l : String) : Bool := !(trimStr l == "") && !(strStarts l "##")

/-- Timestamp contributed by one raw line of the mirror file in
`_newest_first_seen_from_csv`: the line is `lstrip('#').strip()`-ed, CSV
split, and the first field `strip().strip('"')`-ed then parsed. -/
def lineTs (l : String) : Option Nat :=
  if lineKept l then
    match parseCsvLine (trimStr (dropHashes l)) with
    | [] => none
    | f :: _ => parseTs (stripQuotesEnds (trimStr f))
  else none

/-- Model of `_newest_first_seen_from_csv` applied to the mirror's lines
(identical function body in `import_hashes.py` and `localHashes_Check.py`). -/
def newest_first_seen_from_csv (lines : List String) : Option Nat :=
  lines.foldl (fun acc l => optMax acc (lineTs l)) none

/-- Header detection of `import_hashes.py`: a line starting with `#` that
contains a comma and a double quote. -/
def isHeaderLine (l : String) : Bool :=
  strStarts l "#" && containsChar l ',' && containsChar l '"'

/-- The `processed_lines` preprocessing of `import_hashes.py`: the header
line keeps its `#` stripped, pure comment lines are dropped, data lines
are kept. -/
def processedLines (lines : List String) : List String :=
  lines.filterMap (fun l =>
    if isHeaderLine l then some (trimLeftStr (dropHashes l))
    else if strStarts l "#" then none
    else some l)

/-- Lookup of a field in a `DictReader` row (association by header name). -/
def fieldGet (row : List (String × String)) (k : String) : Option String :=
  (row.find? (fun e => e.1 == k)).map (fun e => e.2)

/-- Model of Python `row.get(k, dflt)`. -/
def fieldGetD (row : List (String × String)) (k dflt : String) : String :=
  (fieldGet row k).getD dflt

/-- The hash store's rows: (sha256, malware_name, malware_family, source). -/
abbrev Rows := List (String × String × String × String)

/-- Model of `INSERT OR IGNORE` keyed on the `sha256` primary key. -/
def insertOrIgnore (acc : Rows) (e : String × String × String × String) : Rows :=
  if acc.any (fun r => r.1 == e.1) then acc else acc ++ [e]

/-- One iteration of the row-insertion loop of `import_hashes.py`: a row
without a `sha256_hash` value raises and is skipped (`except` per row);
otherwise insert-or-ignore with defaulted secondary fields. -/
def rowInsert (acc : Rows) (row : List (String × String)) : Rows :=
  match fieldGet row "sha256_hash" with
  | none => acc
  | some v =>
    insertOrIgnore acc
      (lowerStr (trimStr v), fieldGetD row "signature" "Unknown",
       fieldGetD row "file_type_guess" "Unknown",
       fieldGetD row "reporter" "MalwareBazaar")

/-- Fold of the insertion loop over all parsed rows. -/
def insertAll (acc : Rows) (rs : List (List (String × String))) : Rows :=
  rs.foldl rowInsert acc

/-- `csv.DictReader` over the processed lines: first processed line is the
header; each later non-blank line is zipped against the header names. -/
def dictRows (lines : List String) : List (List (String × String)) :=
  match processedLines lines with
  | [] => []
  | h :: rest =>
    let hdr := parseCsvLine h
    rest.filterMap (fun l =>
      match parseCsvLine l with
      | [] => none
      | fs => some (hdr.zip fs))

/-- The full row-import effect of `import_hashes.py` on the store's rows. -/
def importRows (lines : List String) (acc : Rows) : Rows :=
  insertAll acc (dictRows lines)

/-- System state: mirror file, staging file, whether the `malware_hashes`
table exists, its rows, and the watermark (`metadata.json`'s
`last_api_timestamp`, `none` when the file was never written). -/
structure St where
  mirror : Option (List String)
  tmp : Option (List String)
  tableExists : Bool
  rows : Rows
  watermark : Option String
deriving DecidableEq

/-- The never-synchronized initial state. -/
def initSt : St := { mirror := none, tmp := none, tableExists := false, rows := [], watermark := none }

/-- Model of `init_db.py`: `CREATE TABLE IF NOT EXISTS` — creates an empty
table when absent, leaves an existing one untouched. -/
def init_db_run (st : St) : St :=
  if st.tableExists then st else { st with tableExists := true, rows := [] }

/-- Model of `import_hashes.py` run on the given mirror lines: commit the
inserted rows, then (best effort) write the watermark when a newest
timestamp was found; `metaOk = false` models the swallowed write failure
(`except Exception: print("Failed to write metadata", ...)`). -/
def import_hashes_run (lines : List String) (metaOk : Bool) (st : St) : St :=
  let st1 := { st with rows := importRows lines st.rows }
  match newest_first_seen_from_csv lines with
  | some n => if metaOk then { st1 with watermark := some (formatTs n) } else st1
  | none => st1

/-- Model of `update_hashes.rebuild_database`: run `init_db.py` then
`import_hashes.py` on the current mirror content. -/
def rebuild_database (lines : List String) (metaOk : Bool) (st : St) : St :=
  import_hashes_run lines metaOk (init_db_run st)

/-- Outcome vocabulary of a synchronization run (a raised download error is
`failed`; the caller in `main.py` catches it). -/
inductive SyncResult where
  | no_change
  | replaced
  | failed
deriving DecidableEq

/-- Model of `update_hashes.main(force)`. `download` is the result of
`download_csv()` (`none` = network/timeout/HTTP failure, which raises
before the staging file is written). Content equality stands for equality
of the SHA-256 content digests. -/
def update_hashes_main (force : Bool) (download : Option (List String))
    (metaOk : Bool) (st : St) : SyncResult × St :=
  match download with
  | none => (SyncResult.failed, st)
  | some content =>
    let stA := init_db_run { st with tmp := some content }
    match st.mirror with
    | none =>
      (SyncResult.replaced,
        rebuild_database content metaOk { stA with mirror := some content, tmp := none })
    | some old =>
      if old = content then
        if force then
          (SyncResult.replaced, rebuild_database old metaOk { stA with tmp := none })
        else
          (SyncResult.no_change, { stA with tmp := none })
      else
        (SyncResult.replaced,
          rebuild_database content metaOk { stA with mirror := some content, tmp := none })

/-- One record of the remote API's `data` array; `first_seen = none` models
a record without the `first_seen` key. -/
structure ApiRecord where
  first_seen : Option String
deriving DecidableEq

/-- The remote exchange as seen by `get_latest_sample_timestamp`:
`failure` covers a raised network / HTTP / JSON-decoding error; `success`
carries the body's `query_status` and `data`. -/
inductive ApiResponse where
  | failure
  | success (query_status : String) (data : List ApiRecord)

/-- Model of `getRecentAPIData.get_latest_sample_timestamp`. The list
comprehension parses every collected timestamp; one `strptime` failure
raises and is caught by the outer handler (`none`), as is `max([])`. -/
def get_latest_sample_timestamp (r : ApiResponse) : Option String :=
  match r with
  | ApiResponse.failure => none
  | ApiResponse.success qs data =>
    if qs ≠ "ok" then none
    else if data = [] then none
    else
      match (data.filterMap ApiRecord.first_seen).mapM parseTs with
      | none => none
      | some [] => none
      | some (d :: ds) => some (formatTs (ds.foldl max d))

/-- Stated from the spec's words for the refinement comparison (§4.1):
`None` on network failure, malformed response (including an unparseable
record timestamp), non-ok application status, or empty result set;
otherwise the maximum of the records' timestamps. -/
def latestRemoteTimestampSpec (r : ApiResponse) : Option String :=
  match r with
  | ApiResponse.failure => none
  | ApiResponse.success qs data =>
    if qs = "ok" ∧ data ≠ [] then
      match (data.filterMap ApiRecord.first_seen).mapM parseTs with
      | some (d :: ds) => some (formatTs (ds.foldl max d))
      | _ => none
    else none

/-- The fallback tail of `API_LocalComparison.main`: compare parsed
timestamps when both parse, else fall back to exact string equality
(`latest == last_modified`, where a `None` latest never equals a string). -/
def fallbackCompare (latest : Option String) (lm : String) : Bool :=
  match latest.bind parseTs, parseTs lm with
  | some l, some d => decide (l ≤ d)
  | _, _ => decide (latest = some lm)

/-- Model of `API_LocalComparison.main`: `latest` is the oracle's returned
string, `lm` the module-level `last_modified` string, `metaTs` the
`last_api_timestamp` read from `metadata.json` (`none` when the file is
absent, unreadable, or the key missing). The metadata comparison returns
`true` when the watermark is at least the remote timestamp; otherwise the
CSV/string fallback decides. -/
def api_comparison_main (latest : Option String) (lm : String)
    (metaTs : Option String) : Bool :=
  match metaTs.bind parseTs, latest.bind parseTs with
  | some m, some l => if l ≤ m then true else fallbackCompare latest lm
  | _, _ => fallbackCompare latest lm

/-- Model of `db.check_hash`: on a missing table the `OperationalError` is
caught, a warning is printed (second component `true`) and the result is
`None`; otherwise the row lookup's `(malware_name, malware_family)`. -/
def check_hash (tableExists : Bool) (rows : Rows) (h : String) :
    Option (String × String) × Bool :=
  if tableExists then
    ((rows.find? (fun e => e.1 == h)).map (fun e => (e.2.1, e.2.2.1)), false)
  else (none, true)

/-- The structured verdict printed by `main.py`. -/
structure Verdict where
  known_malware : Bool
  malware_name : Option String
  malware_family : Option String
  detection_method : String
deriving DecidableEq

/-- Verdict construction of `main.py` from the `check_hash` result. -/
def buildVerdict (r : Option (String × String)) : Verdict :=
  match r with
  | some (n, f) =>
    { known_malware := true, malware_name := some n, malware_family := some f,
      detection_method := "Threat intelligence hash match" }
  | none =>
    { known_malware := false, malware_name := none, malware_family := none,
      detection_method := "No match in threat intelligence database" }

/-- Outcome of the `check_db()` call in `main.py`'s `try` block: either the
returned boolean or a raised exception. -/
inductive CheckOutcome where
  | ok (b : Bool)
  | raised
deriving DecidableEq

/-- Model of `main.py`'s `main(file_path, force)`: run the freshness check
(`raised` is caught and leaves `up_to_date = None`), synchronize only when
the result `is False`, then look the digest up and build the verdict.
Returns (whether an update was attempted, final state, verdict). -/
def scanner_main (o : CheckOutcome) (force : Bool)
    (download : Option (List String)) (metaOk : Bool) (st : St)
    (digest : String) : Bool × St × Verdict :=
  let doUpdate := match o with
    | CheckOutcome.ok false => true
    | _ => false
  let st1 := if doUpdate then (update_hashes_main force download metaOk st).2 else st
  (doUpdate, st1, buildVerdict (check_hash st1.tableExists st1.rows digest).1)

/-- Model of the module-level computation of `localHashes_Check.py`:
when the mirror file exists, `last_modified` is the newest parsed
`first_seen` or, failing that, the file's mtime string; when the file is
absent, `_newest_first_seen_from_csv` returns `None` (its
`except FileNotFoundError`) and the fallback `os.path.getmtime` raises,
so the module load fails (`Except.error`). -/
def last_modified_load (fileExists : Bool) (lines : List String)
    (mtimeStr : String) : Except Unit String :=
  if fileExists then
    match newest_first_seen_from_csv lines with
    | some n => Except.ok (formatTs n)
    | none => Except.ok mtimeStr
  else Except.error ()

/-- One synchronization attempt in a system run. -/
structure Step where
  force : Bool
  download : Option (List String)
  metaOk : Bool

/-- Apply one synchronization step to the state. -/
def applyStep (st : St) (s : Step) : St :=
  (update_hashes_main s.force s.download s.metaOk st).2

/-- States reachable from the never-synchronized state by a run of
synchronization attempts. -/
def runSteps (l : List Step) : St := l.foldl applyStep initSt

/-- The watermark-vs-mirror invariant: whenever the current mirror has a
newest parseable `first_seen`, the watermark records exactly it. -/
def WmInv (st : St) : Prop :=
  ∀ m n, st.mirror = some m → newest_first_seen_from_csv m = some n →
    st.watermark = some (formatTs n)

/-- Claim C1 counterexample: with the watermark at `2024-01-01 00:00:00`,
the remote at `2024-01-02 00:00:00` (strictly newer), and the local CSV
newest at `2024-01-03 00:00:00`, the freshness check returns `true` — the
claim requires `false` whenever the watermark timestamp is strictly less
than the remote timestamp. -/
theorem c1_watermark_behind_but_fresh :
    api_comparison_main (some "2024-01-02 00:00:00") "2024-01-03 00:00:00"
      (some "2024-01-01 00:00:00") = true := by decide

/-- Claim C1 (amended): when the watermark and the remote timestamp both
parse, the check returns `true` if the watermark is at least the remote
timestamp; when it is strictly behind, the check does not return `false`
but falls through to the CSV/string fallback comparison. -/
theorem c1_amended_freshness (ls lm ms : String) (l m : Nat)
    (h1 : parseTs ls = some l) (h2 : parseTs ms = some m) :
    api_comparison_main (some ls) lm (some ms) =
      (decide (l ≤ m) || fallbackCompare (some ls) lm) := by
  unfold api_comparison_main
  simp only [Option.bind_some, Option.some_bind, h1, h2]
  by_cases h : l ≤ m <;> simp [h]

/-- Witness for `c1_amended_freshness` at concrete timestamps. -/
theorem c1_amended_freshness_witness :
    api_comparison_main (some "2024-01-02 00:00:00") "2024-01-03 00:00:00"
      (some "2024-01-01 00:00:00") =
      (decide ((20240102000000 : Nat) ≤ 20240101000000) ||
        fallbackCompare (some "2024-01-02 00:00:00") "2024-01-03 00:00:00") :=
  c1_amended_freshness "2024-01-02 00:00:00" "2024-01-03 00:00:00"
    "2024-01-01 00:00:00" 20240102000000 20240101000000 (by decide) (by decide)

/-- Claim C2 counterexample: when the freshness check raises, `main.py`
leaves `up_to_date = None`, and since the update runs only on
`up_to_date is False`, no synchronization is attempted — the claim says an
attempt is required. -/
theorem c2_raised_skips_update :
    (scanner_main CheckOutcome.raised false (some ["x"]) true initSt "d").1 = false := by
  decide

/-- Claim C2 (amended): `main.py` attempts a synchronization exactly when
the freshness check returns `False`; when the check raises (freshness
unknown), the update is skipped and the lookup proceeds on existing data. -/
theorem c2_amended_update_condition :
    ∀ o force dl metaOk st dg,
      (scanner_main o force dl metaOk st dg).1 = true ↔ o = CheckOutcome.ok false := by
  intro o force dl metaOk st dg
  cases o with
  | ok b => cases b <;> simp [scanner_main]
  | raised => simp [scanner_main]

/-- Claim C4 (confirmed): when the download fails, `update_hashes.main`
raises before the staging file is written (modelled as the `failed`
result); for any `force`, the whole state — mirror, staging, table, rows
and watermark — is unchanged and no rebuild occurs. -/
theorem c4_sync_download_failure_intact :
    ∀ force metaOk st, update_hashes_main force none metaOk st = (SyncResult.failed, st) := by
  intro force metaOk st; rfl

/-- Claim C9 counterexample: the verdict produced for a digest queried
against a never-initialized store is byte-for-byte the same verdict as an
ordinary miss against an initialized empty store — it is not
distinguishable, contrary to the claim (the distinct text is only a
printed warning, not part of the verdict). -/
theorem c9_uninitialized_indistinguishable :
    buildVerdict (check_hash false []
        "e3b0c44298fc1c149afbf4c8996fb92427ae41e4649b934ca495991b7852b855").1 =
      buildVerdict (check_hash true []
        "e3b0c44298fc1c149afbf4c8996fb92427ae41e4649b934ca495991b7852b855").1 := by
  decide

/-- Claim C9 (amended): on a missing table `check_hash` does not propagate
the storage error: it prints a warning (second component `true`) and
returns no row, and the structured verdict built from it is the generic
no-match verdict, with the ordinary "No match" detection method. -/
theorem c9_amended_warning_not_verdict :
    ∀ rows h, check_hash false rows h = (none, true) ∧
      buildVerdict (check_hash false rows h).1 =
        { known_malware := false, malware_name := none, malware_family := none,
          detection_method := "No match in threat intelligence database" } := by
  intro rows h
  exact ⟨rfl, rfl⟩

/-- Claim C10 (code bug): with the mirror file absent,
`localHashes_Check`'s `_newest_first_seen_from_csv` deliberately catches
`FileNotFoundError`, but the mtime fallback then calls `os.path.getmtime`
on the same missing path and raises at module import time, so the program
aborts before producing any verdict. -/
theorem c10_missing_mirror_aborts :
    last_modified_load false [] "2024-01-01 00:00:00" = Except.error () := rfl

/-- Claim C3 (confirmed): with a live mirror whose content digest equals
the downloaded candidate and an initialized store, `sync` with
`force = false` returns `no_change` and the post-state is the pre-state
with the staging file discarded: mirror, rows and watermark untouched. -/
theorem c3_sync_no_change_noop (st : St) (content : List String) (metaOk : Bool)
    (hM : st.mirror = some content) (hT : st.tableExists = true) :
    update_hashes_main false (some content) metaOk st =
      (SyncResult.no_change, { st with tmp := none }) := by
  unfold update_hashes_main init_db_run
  rw [hM]
  simp [hT]

/-- Witness for `c3_sync_no_change_noop` at a concrete state. -/
theorem c3_sync_no_change_noop_witness :
    update_hashes_main false (some ["a,b"]) true
      { mirror := some ["a,b"], tmp := none, tableExists := true, rows := [],
        watermark := none } =
      (SyncResult.no_change,
        { mirror := some ["a,b"], tmp := none, tableExists := true, rows := [],
          watermark := none }) :=
  c3_sync_no_change_noop _ _ _ rfl rfl

/-- Mirror lines used by the C6 counterexample: a commented header line
plus one well-formed data row. -/
def c6csv : List String :=
  ["# \"first_seen_utc\",\"sha256_hash\",\"signature\",\"file_type_guess\",\"reporter\"",
   "\"2024-04-01 00:00:00\",\"beef\",\"TestMal\",\"exe\",\"alice\""]

/-- Claim C6 counterexample: a first synchronization whose metadata write
fails (`metaOk = false`, the swallowed `except` in `import_hashes.py`)
commits the new row to the hash store while the watermark is never
written, even though the new mirror has a parseable newest timestamp —
the pair is not updated as one transaction. -/
theorem c6_commit_without_watermark :
    (runSteps [⟨false, some c6csv, false⟩]).rows = [("beef", "TestMal", "exe", "alice")] ∧
    (runSteps [⟨false, some c6csv, false⟩]).watermark = none ∧
    newest_first_seen_from_csv c6csv = some 20240401000000 := by decide

/-- Claim C6 (amended): the two writes are separate steps, not one
transaction. The row commit can succeed with the watermark write failing
(see the counterexample); the converse cannot happen: whenever
`import_hashes.py` changes the watermark, the watermark is exactly the
newest timestamp of the imported lines and the row commit has been
applied. -/
theorem c6_amended_watermark_implies_commit :
    ∀ lines metaOk st,
      (import_hashes_run lines metaOk st).watermark ≠ st.watermark →
        (import_hashes_run lines metaOk st).watermark =
          (newest_first_seen_from_csv lines).map formatTs ∧
        (import_hashes_run lines metaOk st).rows = importRows lines st.rows := by
  intro lines metaOk st hW
  cases hN : newest_first_seen_from_csv lines with
  | none =>
    exact absurd (by simp [import_hashes_run, hN]) hW
  | some n =>
    cases metaOk with
    | false => exact absurd (by simp [import_hashes_run, hN]) hW
    | true => exact ⟨by simp [import_hashes_run, hN], by simp [import_hashes_run, hN]⟩

/-- Mirror lines used by the witness of the amended C6 theorem. -/
def c6wcsv : List String := ["2024-04-01 00:00:00,x"]

/-- Witness for `c6_amended_watermark_implies_commit` at a concrete import
whose watermark write succeeds and changes the watermark. -/
theorem c6_amended_watermark_implies_commit_witness :
    (import_hashes_run c6wcsv true initSt).watermark =
      (newest_first_seen_from_csv c6wcsv).map formatTs ∧
    (import_hashes_run c6wcsv true initSt).rows = importRows c6wcsv initSt.rows :=
  c6_amended_watermark_implies_commit c6wcsv true initSt (by decide)

/-- Claim C7 counterexample: when the oracle returns `None`, the caller
`API_LocalComparison.main` falls through to the string-equality fallback
and returns `false` ("Database needs to be updated!"), and `main.py` then
attempts an update — the caller concludes "stale" from `None` instead of
treating it as freshness-unknown. -/
theorem c7_none_treated_as_stale :
    api_comparison_main none "2024-01-10 12:00:00" none = false ∧
    (scanner_main (CheckOutcome.ok (api_comparison_main none "2024-01-10 12:00:00" none))
        false none true initSt "d").1 = true := by decide

/-- Claim C7 (amended): the oracle itself behaves as specified — `None`
exactly on network failure, malformed response (including an unparseable
record timestamp), non-ok application status, or an empty/absent
timestamp set, and otherwise the maximum of the records' timestamps — but
the caller, given `None`, always returns `false` (needs update), treating
the unknown as stale. -/
theorem c7_amended_oracle_and_caller :
    (∀ r, get_latest_sample_timestamp r = latestRemoteTimestampSpec r) ∧
    (∀ lm metaTs, api_comparison_main none lm metaTs = false) := by
  constructor
  · intro r
    cases r with
    | failure => rfl
    | success qs data =>
      unfold get_latest_sample_timestamp latestRemoteTimestampSpec
      by_cases hq : qs = "ok"
      · by_cases hd : data = []
        · simp [hq, hd]
        · simp only [hq, hd, ne_eq, not_true_eq_false, if_false, not_false_eq_true,
            and_true, if_true, and_self, ite_true, ite_false]
          cases hm : (data.filterMap ApiRecord.first_seen).mapM parseTs with
          | none => simp
          | some ts => cases ts <;> simp
      · simp [hq]
  · intro lm metaTs
    unfold api_comparison_main
    cases Option.bind metaTs parseTs <;> rfl

/-- Claim C8 counterexample: in the remote-record timestamp aggregation, a
single unparseable `first_seen` string makes the list comprehension raise,
so the whole operation returns nothing (`none`) — even though the same
well-formed record alone is processed fine. -/
theorem c8_single_bad_timestamp_aborts_aggregation :
    get_latest_sample_timestamp (ApiResponse.success "ok"
        [⟨some "2024-01-01 00:00:00"⟩, ⟨some "garbage"⟩]) = none ∧
    get_latest_sample_timestamp (ApiResponse.success "ok"
        [⟨some "2024-01-01 00:00:00"⟩]) = some "2024-01-01 00:00:00" := by decide

/-- Removing a line contributing no parseable timestamp does not change the
newest-timestamp fold, whatever the accumulator. -/
theorem foldl_optMax_skip (bad : String) (hb : lineTs bad = none) :
    ∀ (pre : List String) (acc : Option Nat) (post : List String),
      (pre ++ bad :: post).foldl (fun a l => optMax a (lineTs l)) acc =
        (pre ++ post).foldl (fun a l => optMax a (lineTs l)) acc := by
  intro pre
  induction pre with
  | nil => intro acc post; simp [hb, optMax]
  | cons x xs ih =>
    intro acc post
    simp only [List.cons_append, List.foldl_cons]
    exact ih _ _

/-- Removing a row without a `sha256_hash` value does not change the
insertion fold. -/
theorem insertAll_skip (bad : List (String × String))
    (hb : fieldGet bad "sha256_hash" = none) :
    ∀ (rs1 : List (List (String × String))) (acc : Rows) rs2,
      insertAll acc (rs1 ++ bad :: rs2) = insertAll acc (rs1 ++ rs2) := by
  intro rs1
  induction rs1 with
  | nil => intro acc rs2; simp [insertAll, rowInsert, hb]
  | cons x xs ih =>
    intro acc rs2
    simp only [List.cons_append, insertAll, List.foldl_cons]
    exact ih _ _

/-- Claim C8 (amended): the mirror newest-timestamp scan and the CSV row
loop skip a malformed record individually and process all others, and
the remote aggregation skips records missing the `first_seen` key; but a
record whose `first_seen` string is present and unparseable aborts the
whole remote aggregation (see the counterexample). -/
theorem c8_amended_skip_behavior :
    (∀ pre post bad, lineTs bad = none →
        newest_first_seen_from_csv (pre ++ bad :: post) =
          newest_first_seen_from_csv (pre ++ post)) ∧
    (∀ (acc : Rows) rs1 rs2 bad, fieldGet bad "sha256_hash" = none →
        insertAll acc (rs1 ++ bad :: rs2) = insertAll acc (rs1 ++ rs2)) ∧
    (∀ qs r1 r2,
        get_latest_sample_timestamp (ApiResponse.success qs (r1 ++ ⟨none⟩ :: r2)) =
          get_latest_sample_timestamp (ApiResponse.success qs (r1 ++ r2))) := by
  refine ⟨?_, ?_, ?_⟩
  · intro pre post bad hb
    exact foldl_optMax_skip bad hb pre none post
  · intro acc rs1 rs2 bad hb
    exact insertAll_skip bad hb rs1 acc rs2
  · intro qs r1 r2
    unfold get_latest_sample_timestamp
    by_cases hq : qs = "ok"
    · by_cases hd : r1 ++ r2 = []
      · rcases List.append_eq_nil.mp hd with ⟨h1, h2⟩
        subst hq; subst h1; subst h2
        decide
      · have hne : r1 ++ (⟨none⟩ : ApiRecord) :: r2 ≠ [] := by
          cases r1 <;> simp
        simp only [hq, ne_eq, not_true_eq_false, if_false, hd, hne,
          List.filterMap_append, List.filterMap_cons]
    · simp [hq]

/-- Witness for `c8_amended_skip_behavior`: a malformed mirror line and a
malformed import row are each skipped without affecting the rest. -/
theorem c8_amended_skip_behavior_witness :
    newest_first_seen_from_csv ["2024-01-01 00:00:00,x", "garbage,y"] =
      newest_first_seen_from_csv ["2024-01-01 00:00:00,x"] ∧
    insertAll [] [[("sha256_hash", "aa")], [("oops", "zz")]] =
      insertAll [] [[("sha256_hash", "aa")]] :=
  ⟨c8_amended_skip_behavior.1 ["2024-01-01 00:00:00,x"] [] "garbage,y" (by decide),
   c8_amended_skip_behavior.2.1 [] [[("sha256_hash", "aa")]] [] [("oops", "zz")] (by decide)⟩

/-- `init_db.py` never changes the mirror file. -/
theorem init_db_run_mirror (st : St) : (init_db_run st).mirror = st.mirror := by
  unfold init_db_run; split <;> rfl

/-- `init_db.py` never changes the watermark. -/
theorem init_db_run_watermark (st : St) : (init_db_run st).watermark = st.watermark := by
  unfold init_db_run; split <;> rfl

/-- `import_hashes.py` never changes the mirror file. -/
theorem import_hashes_run_mirror (lines : List String) (mOk : Bool) (st : St) :
    (import_hashes_run lines mOk st).mirror = st.mirror := by
  unfold import_hashes_run
  cases hN : newest_first_seen_from_csv lines with
  | none => rfl
  | some n => cases mOk <;> rfl

/-- The watermark invariant only depends on the mirror and the watermark. -/
theorem wmInv_transfer (stA stB : St) (hm : stA.mirror = stB.mirror)
    (hw : stA.watermark = stB.watermark) (h : WmInv stB) : WmInv stA := by
  intro m n h1 h2
  rw [hm] at h1
  rw [hw]
  exact h m n h1 h2

/-- A rebuild whose metadata write succeeds establishes the watermark
invariant for the state it runs on, provided that state's mirror holds
the lines being imported. -/
theorem import_hashes_run_inv (lines : List String) (st : St)
    (hm : st.mirror = some lines) : WmInv (import_hashes_run lines true st) := by
  intro m n h1 h2
  rw [import_hashes_run_mirror, hm] at h1
  injection h1 with h1
  subst h1
  unfold import_hashes_run
  rw [h2]
  rfl

/-- One synchronization step whose metadata write succeeds preserves the
watermark invariant. -/
theorem applyStep_wmInv (st : St) (s : Step) (hs : s.metaOk = true)
    (h : WmInv st) : WmInv (applyStep st s) := by
  obtain ⟨f, d, mo⟩ := s
  change mo = true at hs
  subst hs
  cases d with
  | none => exact h
  | some c =>
    show WmInv (update_hashes_main f (some c) true st).2
    cases hM : st.mirror with
    | none =>
      simp only [update_hashes_main, hM]
      exact import_hashes_run_inv c _ (by rw [init_db_run_mirror])
    | some old =>
      by_cases hc : old = c
      · subst hc
        simp only [update_hashes_main, hM, if_true]
        cases f with
        | true =>
          rw [if_pos rfl]
          exact import_hashes_run_inv old _
            (by rw [init_db_run_mirror, init_db_run_mirror])
        | false =>
          rw [if_neg Bool.false_ne_true]
          exact wmInv_transfer _ st (by rw [init_db_run_mirror]; exact hM.symm)
            (by rw [init_db_run_watermark]) h
      · simp only [update_hashes_main, hM]
        rw [if_neg hc]
        exact import_hashes_run_inv c _ (by rw [init_db_run_mirror])

/-- A run of synchronization steps whose metadata writes all succeed
preserves the watermark invariant. -/
theorem runSteps_wmInv_aux :
    ∀ (l : List Step) (st : St), WmInv st → (∀ s ∈ l, s.metaOk = true) →
      WmInv (l.foldl applyStep st) := by
  intro l
  induction l with
  | nil => intro st h _; exact h
  | cons s t ih =>
    intro st h hok
    simp only [List.foldl_cons]
    exact ih _ (applyStep_wmInv st s (hok s (List.mem_cons_self s t)) h)
      (fun x hx => hok x (List.mem_cons_of_mem s hx))

/-- Claim C5 (amended): along every run from the never-synchronized state
in which each rebuild's watermark write succeeds, whenever the current
mirror has a newest parseable `first_seen` timestamp, the watermark equals
exactly that timestamp (hence is never ahead of the mirror). A failed,
swallowed watermark write breaks this — see the counterexample. -/
theorem c5_amended_watermark_invariant (l : List Step)
    (hok : ∀ s ∈ l, s.metaOk = true) (m : List String) (n : Nat)
    (hm : (runSteps l).mirror = some m)
    (hn : newest_first_seen_from_csv m = some n) :
    (runSteps l).watermark = some (formatTs n) :=
  runSteps_wmInv_aux l initSt
    (fun _ _ h1 _ => absurd h1 (by simp [initSt])) hok m n hm hn

/-- Witness for `c5_amended_watermark_invariant` on a one-step run. -/
theorem c5_amended_watermark_invariant_witness :
    (runSteps [⟨false, some ["2024-05-01 00:00:00,aaa"], true⟩]).watermark =
      some (formatTs 20240501000000) :=
  c5_amended_watermark_invariant [⟨false, some ["2024-05-01 00:00:00,aaa"], true⟩]
    (by decide) ["2024-05-01 00:00:00,aaa"] 20240501000000 (by decide) (by decide)

/-- Mirror contents for the C5 counterexample. -/
def c5csvA : List String := ["2024-05-01 00:00:00,aaa"]

/-- Replacement mirror contents, older than `c5csvA`, for the C5
counterexample. -/
def c5csvB : List String := ["2024-04-01 00:00:00,bbb"]

/-- Claim C5 counterexample: a reachable state (first sync succeeds fully;
a second sync replaces the mirror with older content but its metadata
write fails, which `import_hashes.py` swallows while still reporting a
successful rebuild) whose watermark `2024-05-01 00:00:00` is strictly
newer than the mirror's newest `first_seen` `2024-04-01 00:00:00`. -/
theorem c5_watermark_ahead_of_mirror :
    (runSteps [⟨false, some c5csvA, true⟩, ⟨false, some c5csvB, false⟩]).mirror =
      some c5csvB ∧
    (runSteps [⟨false, some c5csvA, true⟩, ⟨false, some c5csvB, false⟩]).watermark =
      some "2024-05-01 00:00:00" ∧
    newest_first_seen_from_csv c5csvB = some 20240401000000 ∧
    parseTs "2024-05-01 00:00:00" = some 20240501000000 ∧
    (20240401000000 : Nat) < 20240501000000 := by decide
